import Mathlib

set_option autoImplicit false
set_option maxRecDepth 100000

namespace KCobain

/-!
Shallow embedding of the USB Audio Class microframe simulator core:
the ring-buffer controller (`src/core/audio_rb_controller.cpp`), the
producer worker loop (`usb_audio_producer.cpp`), the consumer worker
loop (`usb_audio_consumer.cpp`) and the orchestrator statistics
(`usb_audio_orchestrator.cpp`).

The miniaudio ring buffer (`ma_rb`) is an external collaborator that is
not part of this repository; its acquire/commit operations are modelled
from the spec (section 4.1): an acquire grants between 0 and the
requested number of bytes, 0 indicating that the buffer lacks
space/data, and the call itself succeeds on any valid buffer; a commit
advances the corresponding cursor.  Byte contents are carried as
`List Nat`.
-/

/-- Result code of a miniaudio call.  `MA_SUCCESS` is the success code;
`MA_ERROR` stands for any failing result. -/
inductive ma_result where
  | MA_SUCCESS
  | MA_ERROR
deriving DecidableEq, Repr

/-- Modelled from the spec: the external SPSC ring buffer primitive.
`content` is the committed-but-unread byte range; `capacity` is fixed at
creation. -/
structure ma_rb where
  capacity : Nat
  content : List Nat
deriving DecidableEq, Repr

/-- Free space of the ring buffer (bytes not occupied by committed,
unread data). -/
def ma_rb.free (rb : ma_rb) : Nat := rb.capacity - rb.content.length

/-- Modelled from the spec: `acquireWrite(requestedBytes)` returns a
granted byte count in `[0, requestedBytes]`, 0 when the buffer lacks
space; the call itself succeeds on a valid buffer. -/
def ma_rb_acquire_write (rb : ma_rb) (requestedBytes : Nat) : ma_result × Nat :=
  (ma_result.MA_SUCCESS, min requestedBytes rb.free)

/-- Modelled from the spec: `commitWrite` advances the write cursor,
making the written bytes visible to the reader. -/
def ma_rb_commit_write (rb : ma_rb) (bytes : List Nat) : ma_rb :=
  { rb with content := rb.content ++ bytes }

/-- Modelled from the spec: `acquireRead(requestedBytes)` returns a
granted byte count `≤ requestedBytes`, 0 when there is insufficient
committed data; the call itself succeeds on a valid buffer. -/
def ma_rb_acquire_read (rb : ma_rb) (requestedBytes : Nat) : ma_result × Nat :=
  (ma_result.MA_SUCCESS, min requestedBytes rb.content.length)

/-- Modelled from the spec: `commitRead` advances the read cursor,
freeing the consumed range for future writes. -/
def ma_rb_commit_read (rb : ma_rb) (n : Nat) : ma_rb :=
  { rb with content := rb.content.drop n }

/-- Modelled from the spec: `ma_rb_init` fails on zero capacity and
otherwise creates an empty ring buffer of the requested size. -/
def ma_rb_init (bufferSizeBytes : Nat) : Option ma_rb :=
  if bufferSizeBytes = 0 then none
  else some { capacity := bufferSizeBytes, content := [] }

/-- State of `audio_rb_controller` (`audio_rb_controller.h/.cpp`):
a stored size, a one-shot `initialized` flag and the owned ring
buffer. -/
structure audio_rb_controller where
  buffer_size_bytes : Nat
  initialized : Bool
  ring_buffer : Option ma_rb
deriving DecidableEq, Repr

/-- A freshly constructed controller (`audio_rb_controller::audio_rb_controller`). -/
def audio_rb_controller.mkNew : audio_rb_controller :=
  { buffer_size_bytes := 0, initialized := false, ring_buffer := none }

/-- `audio_rb_controller::isInitialized`. -/
def audio_rb_controller.isInitialized (c : audio_rb_controller) : Bool :=
  c.initialized

/-- `audio_rb_controller::getBufferSize`. -/
def audio_rb_controller.getBufferSize (c : audio_rb_controller) : Nat :=
  c.buffer_size_bytes

/-- `audio_rb_controller::getRingBuffer`: returns the buffer only when
initialized, null (`none`) otherwise. -/
def audio_rb_controller.getRingBuffer (c : audio_rb_controller) : Option ma_rb :=
  if c.initialized then c.ring_buffer else none

/-- `audio_rb_controller::initialize(bufferSizeBytes)`: early-returns
`true` if already initialized; otherwise stores the size, creates the
ring buffer (failure reported as `false`) and sets the flag.  Returns
the boolean result together with the post-call controller state. -/
def initializeBuffer (c : audio_rb_controller) (bufferSizeBytes : Nat) :
    Bool × audio_rb_controller :=
  if c.initialized then (true, c)
  else
    match ma_rb_init bufferSizeBytes with
    | none => (false, { c with buffer_size_bytes := bufferSizeBytes })
    | some rb =>
        (true, { c with buffer_size_bytes := bufferSizeBytes,
                        ring_buffer := some rb, initialized := true })

/-- Mutable state touched by one iteration of
`usb_audio_producer::producerLoop` (part_006, lines 85-113): the shared
ring buffer and the producer's two atomic counters. -/
structure ProducerLoopState where
  rb : ma_rb
  total_frames_produced : Nat
  overrun_count : Nat
deriving DecidableEq, Repr

/-- Construction of the padded USB microframe (part_006, lines 79-82):
a zero-initialized `frame_size` byte frame whose first
`min audio_data_size frame_size` bytes are copied from the generated
audio data. -/
def mkUsbFrame (frame_size audio_data_size : Nat) (audioData : List Nat) : List Nat :=
  let bytesToCopy := min audio_data_size frame_size
  audioData.take bytesToCopy ++ List.replicate (frame_size - bytesToCopy) 0

/-- One iteration of `usb_audio_producer::producerLoop` (part_006,
lines 85-113), given the generated `usbFrame` payload: acquire
`frame_size` bytes; if the acquire succeeded and granted more than 0
bytes, copy `bytesAcquired` bytes of the frame, commit them and
increment `total_frames_produced`; else if the acquire returned a
failure code, increment `overrun_count`; otherwise do nothing. -/
def producerStep (frame_size : Nat) (usbFrame : List Nat) (s : ProducerLoopState) :
    ProducerLoopState :=
  let bytesToWrite := frame_size
  let acq := ma_rb_acquire_write s.rb bytesToWrite
  let result := acq.1
  let bytesAcquired := acq.2
  if result = ma_result.MA_SUCCESS ∧ 0 < bytesAcquired then
    { s with rb := ma_rb_commit_write s.rb (usbFrame.take bytesAcquired),
             total_frames_produced := s.total_frames_produced + 1 }
  else if result ≠ ma_result.MA_SUCCESS then
    { s with overrun_count := s.overrun_count + 1 }
  else
    s

/-- `n` iterations of the producer loop with a fixed generated frame. -/
def producerRun (frame_size : Nat) (usbFrame : List Nat) :
    Nat → ProducerLoopState → ProducerLoopState
  | 0, s => s
  | n + 1, s => producerRun frame_size usbFrame n (producerStep frame_size usbFrame s)

/-- Mutable state touched by one tick of
`usb_audio_consumer::consumerLoop` (part_003, lines 67-108): the shared
ring buffer and the consumer's two atomic counters. -/
structure ConsumerLoopState where
  rb : ma_rb
  total_frames_consumed : Nat
  underrun_count : Nat
deriving DecidableEq, Repr

/-- One tick of `usb_audio_consumer::consumerLoop` (part_003, lines
74-104): acquire 384 bytes; if the acquire succeeded and granted
exactly 384 bytes, commit the read and increment
`total_frames_consumed`; otherwise increment `underrun_count`. -/
def consumerStep (s : ConsumerLoopState) : ConsumerLoopState :=
  let bytesToConsume := 384
  let acq := ma_rb_acquire_read s.rb bytesToConsume
  if acq.1 = ma_result.MA_SUCCESS ∧ acq.2 = 384 then
    { s with rb := ma_rb_commit_read s.rb acq.2,
             total_frames_consumed := s.total_frames_consumed + 1 }
  else
    { s with underrun_count := s.underrun_count + 1 }

/-- `n` consecutive ticks of the consumer loop. -/
def consumerRun : Nat → ConsumerLoopState → ConsumerLoopState
  | 0, s => s
  | n + 1, s => consumerRun n (consumerStep s)

/-- Value of the consumer loop's `microframeStart` variable at the
start of tick `k` (part_003, lines 64 and 106): initialized to the
clock reading `t0` before the loop, and re-assigned to the previous
tick's target time at the end of every iteration.  Times are in
microseconds. -/
def microframeStart (t0 : Int) : Nat → Int
  | 0 => t0
  | k + 1 => microframeStart t0 k + 125

/-- The consumer's target wake instant (`nextMicroframe`) for tick `k`
(part_003, line 69): `microframeStart + 125µs`. -/
def nextMicroframe (t0 : Int) (k : Nat) : Int :=
  microframeStart t0 k + 125

/-- Modelled from the spec: the absolute-time schedule the spec
prescribes for the consumer, `t0 + k × 125µs` at tick index `k`. -/
def specSchedule (t0 : Int) (k : Nat) : Int :=
  t0 + (k : Int) * 125

/-- The conditional absolute difference computed by the consumer's
self-diagnostic (part_003, lines 87-89). -/
def timingErrorOf (elapsed expectedTime : Int) : Int :=
  if expectedTime < elapsed then elapsed - expectedTime else expectedTime - elapsed

/-- The timing error the code's self-diagnostic reports at tick `k`
(part_003, lines 82-94) when the wall clock reads `now`: `elapsed` is
measured from the current value of `microframeStart` (which by tick `k`
has been re-anchored to `t0 + k·125µs`), and is compared against
`microframeCount × 125`. -/
def diagTimingError (t0 now : Int) (k : Nat) : Int :=
  let elapsed := now - microframeStart t0 k
  let expectedTime : Int := (k : Int) * 125
  timingErrorOf elapsed expectedTime

/-- Modelled from the spec: the self-diagnostic the spec describes —
elapsed wall-clock time since the absolute start timestamp `t0`,
compared against `tickIndex × 125µs`. -/
def specTimingError (t0 now : Int) (k : Nat) : Int :=
  timingErrorOf (now - t0) ((k : Int) * 125)

/-- Lifecycle state of `usb_audio_producer` (part_006): the bound
controller pointer (null modelled as `none`), the atomic `running`
flag, the number of live worker threads, and the statistics
counters. -/
structure usb_audio_producer where
  buffer_controller : Option audio_rb_controller
  running : Bool
  worker_threads : Nat
  total_frames_produced : Nat
  overrun_count : Nat
deriving DecidableEq, Repr

/-- The guard `buffer_controller && buffer_controller->isInitialized()`
checked by `usb_audio_producer::start` (part_006, line 28). -/
def usb_audio_producer.controllerValid (p : usb_audio_producer) : Bool :=
  match p.buffer_controller with
  | none => false
  | some c => c.isInitialized

/-- `usb_audio_producer::start` (part_006, lines 25-36): early return
when already running; error return (no state change) when the
controller is null or uninitialized; otherwise set `running` and spawn
the single worker thread. -/
def usb_audio_producer.start (p : usb_audio_producer) : usb_audio_producer :=
  if p.running then p
  else if p.controllerValid then
    { p with running := true, worker_threads := 1 }
  else p

/-- `usb_audio_producer::stop` (part_006, lines 38-46): early return
when not running; otherwise clear `running` and join the worker
thread. -/
def usb_audio_producer.stop (p : usb_audio_producer) : usb_audio_producer :=
  if p.running then
    { p with running := false, worker_threads := 0 }
  else p

/-- `usb_audio_producer::isRunning` (part_006, lines 48-50). -/
def usb_audio_producer.isRunning (p : usb_audio_producer) : Bool :=
  p.running

/-- Lifecycle state of `usb_audio_consumer` (part_003), mirroring the
producer's. -/
structure usb_audio_consumer where
  buffer_controller : Option audio_rb_controller
  running : Bool
  worker_threads : Nat
  total_frames_consumed : Nat
  underrun_count : Nat
deriving DecidableEq, Repr

/-- The guard checked by `usb_audio_consumer::start` (part_003,
line 25). -/
def usb_audio_consumer.controllerValid (c : usb_audio_consumer) : Bool :=
  match c.buffer_controller with
  | none => false
  | some ctrl => ctrl.isInitialized

/-- `usb_audio_consumer::start` (part_003, lines 22-33). -/
def usb_audio_consumer.start (c : usb_audio_consumer) : usb_audio_consumer :=
  if c.running then c
  else if c.controllerValid then
    { c with running := true, worker_threads := 1 }
  else c

/-- `usb_audio_consumer::stop` (part_003, lines 35-43). -/
def usb_audio_consumer.stop (c : usb_audio_consumer) : usb_audio_consumer :=
  if c.running then
    { c with running := false, worker_threads := 0 }
  else c

/-- `usb_audio_consumer::isRunning` (part_003, lines 45-47). -/
def usb_audio_consumer.isRunning (c : usb_audio_consumer) : Bool :=
  c.running

/-- The four statistics counters read by
`usb_audio_orchestrator::printStatistics` (part_004, lines 68-80). -/
structure stream_counters where
  framesProduced : Nat
  framesConsumed : Nat
  overrunCount : Nat
  underrunCount : Nat
deriving DecidableEq, Repr

/-- The derived rates of `usb_audio_orchestrator::printStatistics`
(part_004, lines 68-80): the underrun rate is computed (and logged)
only when `framesProduced > 0` and the overrun rate only when
`framesConsumed > 0`; `none` means the rate line is omitted.  The
C++ `double` arithmetic is modelled with exact rationals. -/
def printStatistics (st : stream_counters) : Option Rat × Option Rat :=
  ( if 0 < st.framesProduced then
      some ((st.underrunCount : Rat) / (st.framesProduced : Rat) * 100)
    else none,
    if 0 < st.framesConsumed then
      some ((st.overrunCount : Rat) / (st.framesConsumed : Rat) * 100)
    else none )

/-! Helper lemmas shared by the claim theorems. -/

lemma producerStep_pos (fs : Nat) (frame : List Nat) (s : ProducerLoopState)
    (h : 0 < min fs s.rb.free) :
    producerStep fs frame s =
      { s with rb := ma_rb_commit_write s.rb (frame.take (min fs s.rb.free)),
               total_frames_produced := s.total_frames_produced + 1 } := by
  simp [producerStep, ma_rb_acquire_write, h]

lemma producerStep_zero (fs : Nat) (frame : List Nat) (s : ProducerLoopState)
    (h : min fs s.rb.free = 0) :
    producerStep fs frame s = s := by
  simp [producerStep, ma_rb_acquire_write, h]

lemma consumerStep_nodata (s : ConsumerLoopState) (h : s.rb.content = []) :
    consumerStep s = { s with underrun_count := s.underrun_count + 1 } := by
  simp [consumerStep, ma_rb_acquire_read, h]

lemma consumerRun_empty (N : Nat) : ∀ (s : ConsumerLoopState), s.rb.content = [] →
    consumerRun N s = { s with underrun_count := s.underrun_count + N } := by
  induction N with
  | zero => intro s _; rfl
  | succ n ih =>
      intro s h
      obtain ⟨⟨cap, cont⟩, f, u⟩ := s
      simp only at h
      subst h
      rw [consumerRun, consumerStep_nodata _ rfl, ih _ rfl]
      simp only [ConsumerLoopState.mk.injEq, and_true, true_and]
      omega

lemma microframeStart_closed (t0 : Int) (k : Nat) :
    microframeStart t0 k = t0 + (k : Int) * 125 := by
  induction k with
  | zero => simp [microframeStart]
  | succ n ih =>
      rw [microframeStart, ih]
      push_cast
      ring

/-- C1 counterexample: on a buffer with 268 free bytes, `acquireWrite(384)`
grants 268 ≠ 384, yet the producer loop commits the 268 granted bytes
(content grows from 500 to 768 bytes) and increments
`total_frames_produced`, while `overrun_count` stays 0 — contradicting
the claim that any grant other than the full frame size increments
`overrunCount` and commits nothing. -/
theorem C1_counterexample :
    (ma_rb_acquire_write { capacity := 768, content := List.replicate 500 0 } 384).2 = 268 ∧
    (producerStep 384 (List.replicate 384 1)
        { rb := { capacity := 768, content := List.replicate 500 0 },
          total_frames_produced := 0, overrun_count := 0 }).total_frames_produced = 1 ∧
    (producerStep 384 (List.replicate 384 1)
        { rb := { capacity := 768, content := List.replicate 500 0 },
          total_frames_produced := 0, overrun_count := 0 }).overrun_count = 0 ∧
    (producerStep 384 (List.replicate 384 1)
        { rb := { capacity := 768, content := List.replicate 500 0 },
          total_frames_produced := 0, overrun_count := 0 }).rb.content.length = 768 := by
  decide

/-- C1 (amended): in every producer-loop iteration, if `acquireWrite`
grants a positive number of bytes — even fewer than `frame_size` — the
granted prefix of the payload is copied and committed and
`total_frames_produced` increases by 1; if it grants 0 bytes nothing
changes; and `overrun_count` never changes on a successful acquire
(it would increase only on a failing result code, which a valid ring
buffer does not return). -/
theorem C1_partial_grants_committed (fs : Nat) (frame : List Nat) (s : ProducerLoopState) :
    (0 < min fs s.rb.free →
      producerStep fs frame s =
        { s with rb := ma_rb_commit_write s.rb (frame.take (min fs s.rb.free)),
                 total_frames_produced := s.total_frames_produced + 1 }) ∧
    (min fs s.rb.free = 0 → producerStep fs frame s = s) ∧
    (producerStep fs frame s).overrun_count = s.overrun_count := by
  refine ⟨producerStep_pos fs frame s, producerStep_zero fs frame s, ?_⟩
  rcases Nat.eq_zero_or_pos (min fs s.rb.free) with hz | hp
  · rw [producerStep_zero fs frame s hz]
  · rw [producerStep_pos fs frame s hp]

/-- C1 witness: the amended theorem applied at the counterexample
input. -/
theorem C1_witness :
    0 < min 384 (ma_rb.free { capacity := 768, content := List.replicate 500 0 }) ∧
    producerStep 384 (List.replicate 384 1)
        { rb := { capacity := 768, content := List.replicate 500 0 },
          total_frames_produced := 0, overrun_count := 0 } =
      { rb := ma_rb_commit_write { capacity := 768, content := List.replicate 500 0 }
                ((List.replicate 384 1).take
                  (min 384 (ma_rb.free { capacity := 768, content := List.replicate 500 0 }))),
        total_frames_produced := 1, overrun_count := 0 } := by
  have h := C1_partial_grants_committed 384 (List.replicate 384 1)
      { rb := { capacity := 768, content := List.replicate 500 0 },
        total_frames_produced := 0, overrun_count := 0 }
  exact ⟨by decide, h.1 (by decide)⟩

/-- C2 (code bug, evaluated at the failing input): with capacity 768,
frame size 384 and the consumer never started, three producer
iterations produce 2 frames (the cap `floor(768/384)`), but the third
attempt — made against a completely full buffer — leaves
`overrun_count` at 0 instead of incrementing it, because the full
buffer yields a successful acquire granting 0 bytes.  Moreover with
capacity 900 the third iteration commits a 132-byte partial frame, so
`total_frames_produced` reaches 3 > floor(900/384) = 2. -/
theorem C2_full_buffer_no_overrun_count :
    (producerRun 384 (List.replicate 384 0) 3
        { rb := { capacity := 768, content := [] },
          total_frames_produced := 0, overrun_count := 0 }).total_frames_produced = 2 ∧
    (producerRun 384 (List.replicate 384 0) 3
        { rb := { capacity := 768, content := [] },
          total_frames_produced := 0, overrun_count := 0 }).overrun_count = 0 ∧
    (producerRun 384 (List.replicate 384 0) 3
        { rb := { capacity := 900, content := [] },
          total_frames_produced := 0, overrun_count := 0 }).total_frames_produced = 3 := by
  decide

/-- C3: with the producer disabled, `N` consumer ticks against an empty
buffer each take the underrun branch, so `underrun_count` ends at
exactly `N` and `total_frames_consumed` at 0; and on any tick where the
full 384 bytes are available the loop instead commits the read and
increments `total_frames_consumed`, leaving `underrun_count`
unchanged. -/
theorem C3_consumer_underruns (C N : Nat) (s : ConsumerLoopState)
    (h : 384 ≤ s.rb.content.length) :
    (consumerRun N { rb := { capacity := C, content := [] },
                     total_frames_consumed := 0, underrun_count := 0 }).underrun_count = N ∧
    (consumerRun N { rb := { capacity := C, content := [] },
                     total_frames_consumed := 0, underrun_count := 0 }).total_frames_consumed = 0 ∧
    consumerStep s = { s with rb := ma_rb_commit_read s.rb 384,
                              total_frames_consumed := s.total_frames_consumed + 1 } := by
  refine ⟨?_, ?_, ?_⟩
  · rw [consumerRun_empty N _ rfl]
    simp
  · rw [consumerRun_empty N _ rfl]
  · have hmin : min 384 s.rb.content.length = 384 := Nat.min_eq_left h
    simp [consumerStep, ma_rb_acquire_read, hmin]

/-- C3 witness: 4 ticks against an empty buffer give 4 underruns and no
consumed frame; one tick against a buffer holding exactly 384 bytes
consumes one frame. -/
theorem C3_witness :
    (consumerRun 4 { rb := { capacity := 3072, content := [] },
                     total_frames_consumed := 0, underrun_count := 0 }).underrun_count = 4 ∧
    (consumerRun 4 { rb := { capacity := 3072, content := [] },
                     total_frames_consumed := 0, underrun_count := 0 }).total_frames_consumed = 0 ∧
    consumerStep { rb := { capacity := 768, content := List.replicate 384 7 },
                   total_frames_consumed := 5, underrun_count := 2 } =
      { rb := { capacity := 768,
                content := (List.replicate 384 7).drop 384 },
        total_frames_consumed := 5 + 1, underrun_count := 2 } := by
  have h := C3_consumer_underruns 3072 4
      { rb := { capacity := 768, content := List.replicate 384 7 },
        total_frames_consumed := 5, underrun_count := 2 } (by decide)
  exact ⟨h.1, h.2.1, h.2.2⟩

/-- C4 counterexample: the target wake instant of the consumer's first
tick (index 0) is `t0 + 125µs`, not the claimed `t0 + 0 × 125µs`
(shown at `t0 = 0`). -/
theorem C4_counterexample : ¬ (nextMicroframe 0 0 = specSchedule 0 0) := by
  decide

/-- C4 (amended): the loop's incremental re-anchoring (each target
computed as the previous target plus 125µs) coincides with the
absolute-time schedule anchored at `t0` — with no cumulative drift
term — but the target of tick `k` is `t0 + (k+1) × 125µs`, one period
later than the claimed `t0 + k × 125µs`. -/
theorem C4_pacing_drift_free (t0 : Int) (k : Nat) :
    nextMicroframe t0 k = specSchedule t0 (k + 1) := by
  rw [nextMicroframe, microframeStart_closed, specSchedule]
  push_cast
  ring

/-- C5 (code bug, evaluated at the failing input): at tick 1000 with
ideal wake times (`now = t0 + 1001 × 125µs`, `t0 = 0`), the
self-diagnostic in the code measures elapsed time from the re-anchored
`microframeStart` — which at tick 1000 holds `t0 + 1000 × 125µs` — and
so reports a 124875µs "timing error", while the computation the claim
describes (elapsed since `t0` versus `tickIndex × 125µs`) yields
125µs. -/
theorem C5_diag_measures_from_reanchored_start :
    diagTimingError 0 (1001 * 125) 1000 = 124875 ∧
    specTimingError 0 (1001 * 125) 1000 = 125 := by
  have h := microframeStart_closed 0 1000
  constructor
  · rw [diagTimingError]
    norm_num [h, timingErrorOf]
  · rw [specTimingError]
    norm_num [timingErrorOf]

/-- C6: calling `initialize` on an already-initialized controller
returns success and leaves the whole controller state — stored size,
ring buffer and flag — unchanged. -/
theorem C6_reinitialize_noop (c : audio_rb_controller) (n : Nat)
    (h : c.initialized = true) :
    initializeBuffer c n = (true, c) := by
  simp [initializeBuffer, h]

/-- C6 witness: re-initializing a concrete initialized controller with
a different capacity changes nothing and returns success. -/
theorem C6_witness :
    initializeBuffer
        { buffer_size_bytes := 3072, initialized := true,
          ring_buffer := some { capacity := 3072, content := [] } } 4096 =
      (true, { buffer_size_bytes := 3072, initialized := true,
               ring_buffer := some { capacity := 3072, content := [] } }) :=
  C6_reinitialize_noop
    { buffer_size_bytes := 3072, initialized := true,
      ring_buffer := some { capacity := 3072, content := [] } } 4096 rfl

/-- C7: `printStatistics` computes the underrun rate only when
`framesProduced > 0` and the overrun rate only when
`framesConsumed > 0`; whenever a denominator is 0 the corresponding
rate is omitted (`none`), so no division by a zero counter is ever
performed. -/
theorem C7_rates_division_guarded (st : stream_counters) :
    (st.framesProduced = 0 → (printStatistics st).1 = none) ∧
    (0 < st.framesProduced →
      (printStatistics st).1 =
        some ((st.underrunCount : Rat) / (st.framesProduced : Rat) * 100)) ∧
    (st.framesConsumed = 0 → (printStatistics st).2 = none) ∧
    (0 < st.framesConsumed →
      (printStatistics st).2 =
        some ((st.overrunCount : Rat) / (st.framesConsumed : Rat) * 100)) := by
  refine ⟨fun h => ?_, fun h => ?_, fun h => ?_, fun h => ?_⟩ <;>
    simp [printStatistics, h]

/-- C7 witness: with `framesProduced = 0` the underrun rate is omitted
while the overrun rate over 5 consumed frames is computed. -/
theorem C7_witness :
    (printStatistics { framesProduced := 0, framesConsumed := 5,
                       overrunCount := 2, underrunCount := 3 }).1 = none ∧
    (printStatistics { framesProduced := 0, framesConsumed := 5,
                       overrunCount := 2, underrunCount := 3 }).2 =
      some (((2 : Nat) : Rat) / ((5 : Nat) : Rat) * 100) := by
  have h := C7_rates_division_guarded
      { framesProduced := 0, framesConsumed := 5, overrunCount := 2, underrunCount := 3 }
  exact ⟨h.1 rfl, h.2.2.2 (by decide)⟩

/-- C8: starting a stopped producer or consumer whose controller
pointer is null or whose controller is uninitialized is a total
function call that changes nothing: the component stays stopped, no
worker thread is spawned and no counter changes. -/
theorem C8_invalid_controller_start_noop (p : usb_audio_producer) (c : usb_audio_consumer)
    (hp : p.running = false) (hpv : p.controllerValid = false)
    (hc : c.running = false) (hcv : c.controllerValid = false) :
    p.start = p ∧ p.start.isRunning = false ∧
    p.start.worker_threads = p.worker_threads ∧
    p.start.total_frames_produced = p.total_frames_produced ∧
    p.start.overrun_count = p.overrun_count ∧
    c.start = c ∧ c.start.isRunning = false ∧
    c.start.worker_threads = c.worker_threads ∧
    c.start.total_frames_consumed = c.total_frames_consumed ∧
    c.start.underrun_count = c.underrun_count := by
  have h1 : p.start = p := by simp [usb_audio_producer.start, hp, hpv]
  have h2 : c.start = c := by simp [usb_audio_consumer.start, hc, hcv]
  rw [h1, h2]
  exact ⟨rfl, hp, rfl, rfl, rfl, rfl, hc, rfl, rfl, rfl⟩

/-- C8 witness: a producer bound to a null controller and a consumer
bound to a freshly constructed (uninitialized) controller both ignore
`start`. -/
theorem C8_witness :
    usb_audio_producer.start
        { buffer_controller := none, running := false, worker_threads := 0,
          total_frames_produced := 0, overrun_count := 0 } =
      { buffer_controller := none, running := false, worker_threads := 0,
        total_frames_produced := 0, overrun_count := 0 } ∧
    usb_audio_consumer.start
        { buffer_controller := some audio_rb_controller.mkNew, running := false,
          worker_threads := 0, total_frames_consumed := 0, underrun_count := 0 } =
      { buffer_controller := some audio_rb_controller.mkNew, running := false,
        worker_threads := 0, total_frames_consumed := 0, underrun_count := 0 } := by
  have h := C8_invalid_controller_start_noop
      { buffer_controller := none, running := false, worker_threads := 0,
        total_frames_produced := 0, overrun_count := 0 }
      { buffer_controller := some audio_rb_controller.mkNew, running := false,
        worker_threads := 0, total_frames_consumed := 0, underrun_count := 0 }
      rfl rfl rfl rfl
  exact ⟨h.1, h.2.2.2.2.2.1⟩

/-- C9: `start` on an already-running producer/consumer is a no-op that
keeps exactly one worker thread active, and `stop` on an
already-stopped one is a no-op that leaves it stopped. -/
theorem C9_lifecycle_idempotent (p : usb_audio_producer) (c : usb_audio_consumer) :
    (p.running = true → p.start = p) ∧
    (p.running = true → p.worker_threads = 1 → p.start.worker_threads = 1) ∧
    (p.running = false → p.stop = p) ∧
    (c.running = true → c.start = c) ∧
    (c.running = true → c.worker_threads = 1 → c.start.worker_threads = 1) ∧
    (c.running = false → c.stop = c) := by
  have hps : p.running = true → p.start = p := fun h => by
    simp [usb_audio_producer.start, h]
  have hcs : c.running = true → c.start = c := fun h => by
    simp [usb_audio_consumer.start, h]
  refine ⟨hps, fun h h1 => by rw [hps h]; exact h1, fun h => ?_,
          hcs, fun h h1 => by rw [hcs h]; exact h1, fun h => ?_⟩
  · simp [usb_audio_producer.stop, h]
  · simp [usb_audio_consumer.stop, h]

/-- C9 witness: the idempotence theorem applied to a concrete running
producer (one live thread) and a concrete stopped consumer. -/
theorem C9_witness :
    usb_audio_producer.start
        { buffer_controller := none, running := true, worker_threads := 1,
          total_frames_produced := 10, overrun_count := 2 } =
      { buffer_controller := none, running := true, worker_threads := 1,
        total_frames_produced := 10, overrun_count := 2 } ∧
    (usb_audio_producer.start
        { buffer_controller := none, running := true, worker_threads := 1,
          total_frames_produced := 10, overrun_count := 2 }).worker_threads = 1 ∧
    usb_audio_consumer.stop
        { buffer_controller := none, running := false, worker_threads := 0,
          total_frames_consumed := 7, underrun_count := 3 } =
      { buffer_controller := none, running := false, worker_threads := 0,
        total_frames_consumed := 7, underrun_count := 3 } := by
  have h := C9_lifecycle_idempotent
      { buffer_controller := none, running := true, worker_threads := 1,
        total_frames_produced := 10, overrun_count := 2 }
      { buffer_controller := none, running := false, worker_threads := 0,
        total_frames_consumed := 7, underrun_count := 3 }
  exact ⟨h.1 rfl, h.2.1 rfl rfl, h.2.2.2.2.2 rfl⟩

/-- C10: when the buffer is completely full, `acquireWrite` succeeds
granting 0 bytes, and the producer-loop iteration changes nothing —
neither `total_frames_produced` nor `overrun_count` moves and nothing
is committed; only a failing result code would take the overrun
branch. -/
theorem C10_full_buffer_silent_drop (fs : Nat) (frame : List Nat) (s : ProducerLoopState)
    (h : s.rb.free = 0) :
    (ma_rb_acquire_write s.rb fs).1 = ma_result.MA_SUCCESS ∧
    (ma_rb_acquire_write s.rb fs).2 = 0 ∧
    producerStep fs frame s = s := by
  refine ⟨rfl, ?_, ?_⟩
  · simp [ma_rb_acquire_write, h]
  · exact producerStep_zero fs frame s (by rw [h]; simp)

/-- C10 witness: a producer iteration against a concrete full buffer
(768 of 768 bytes occupied) leaves the state untouched. -/
theorem C10_witness :
    ma_rb.free { capacity := 768, content := List.replicate 768 0 } = 0 ∧
    producerStep 384 (List.replicate 384 1)
        { rb := { capacity := 768, content := List.replicate 768 0 },
          total_frames_produced := 2, overrun_count := 0 } =
      { rb := { capacity := 768, content := List.replicate 768 0 },
        total_frames_produced := 2, overrun_count := 0 } := by
  refine ⟨by decide, ?_⟩
  exact (C10_full_buffer_silent_drop 384 (List.replicate 384 1)
      { rb := { capacity := 768, content := List.replicate 768 0 },
        total_frames_produced := 2, overrun_count := 0 } (by decide)).2.2

end KCobain
